import Mathlib

/-!
Shallow embedding of `src/adam6xxx/__init__.py`, the driver for the
ADAM-6000 series of Modbus-TCP I/O modules, together with theorems
checking the repository's specification against it.

The driver talks to an external `pymodbus.client.ModbusTcpClient`.  We
model the transport as an oracle (`Env`): whether the TCP connection can
be opened, and the values that coil / discrete-input / input-register
reads return.  Each driver operation is embedded as a Lean function that
returns its Python-level outcome (`Except PyError α`, where an `.error`
is a raised Python exception) together with the ordered trace of
transport operations it issued (plus `time.sleep` events).
-/

namespace Adam6xxx

/-- Python-level exceptions the embedded code can raise.
`indexError` is a list `IndexError` (the spec calls it `OutOfRange`);
`assertionError` is a failed `assert` (for the verify assert the spec
calls it `VerificationMismatch`); `typeError` is an invalid operand
combination such as `list / float`; `connectionException` is pymodbus's
transport failure (the spec calls it `ConnectionError`); `valueError`
covers `time.sleep` of a negative duration and tuple-unpacking
mismatches. -/
inductive PyError where
  | indexError
  | assertionError
  | typeError
  | connectionException
  | valueError
deriving DecidableEq

/-- One driver-to-transport interaction, or a blocking `time.sleep`,
recorded in the order the driver issues them. -/
inductive Event where
  | connectOp
  | writeCoil (addr : Nat) (value : Bool)
  | readCoils (addr : Nat)
  | readDiscreteInputs (addr : Nat)
  | readInputRegisters (addr : Nat) (count : Nat)
  | sleep (duration : ℚ)
deriving DecidableEq

/-- The external transport/device, as an oracle.  `connectOk` says
whether the TCP connection can be opened (pymodbus sync clients connect
lazily on each request, so every primitive fails with
`ConnectionException` when it is false).  `coilBit k a` is `bits[0]` of
the `k`-th coil read issued (counting from 0), at address `a`: indexing
read-backs by the read count lets an environment report a read-back that
differs from the value just written, as a faulty device would.
`discreteBit a` is the discrete-input bit at address `a`, and `regVal a`
the 16-bit input register at address `a`. -/
structure Env where
  connectOk : Bool
  coilBit : Nat → Nat → Bool
  discreteBit : Nat → Bool
  regVal : Nat → Nat

/-- Number of coil reads in a trace, used to index `Env.coilBit`. -/
def coilReadsIn (tr : List Event) : Nat :=
  tr.countP fun e => match e with
    | .readCoils _ => true
    | _ => false

/-- Python list indexing `l[i]`: a negative index counts from the end of
the list; an index out of range (above `len(l) - 1`, or below `-len(l)`)
raises `IndexError`. -/
def pyIndex (l : List Nat) (i : Int) : Except PyError Nat :=
  let j : Int := if i < 0 then i + l.length else i
  if h : 0 ≤ j ∧ j.toNat < l.length then .ok (l.get ⟨j.toNat, h.2⟩)
  else .error .indexError

/-- `hex(n)[2:]` for a nonnegative `n`: lowercase hexadecimal digits with
no prefix. -/
def pyHex (n : Nat) : String :=
  (Nat.toDigits 16 n).asString

/-- `time.sleep(d)`: raises `ValueError` for a negative duration,
otherwise blocks for `d` seconds (recorded as a `sleep` event). -/
def pySleep (pre : List Event) (d : ℚ) : Except PyError Unit × List Event :=
  if d < 0 then (.error .valueError, pre)
  else (.ok (), pre ++ [.sleep d])

/-- `self._client.write_coil(address, value)`. -/
def write_coil (env : Env) (pre : List Event) (addr : Nat) (value : Bool) :
    Except PyError Unit × List Event :=
  (if env.connectOk then .ok () else .error .connectionException,
   pre ++ [.writeCoil addr value])

/-- `self._client.read_coils(address).bits[0]`. -/
def read_coils_bit (env : Env) (pre : List Event) (addr : Nat) :
    Except PyError Bool × List Event :=
  (if env.connectOk then .ok (env.coilBit (coilReadsIn pre) addr)
   else .error .connectionException,
   pre ++ [.readCoils addr])

/-- The pymodbus response object returned by `read_discrete_inputs`; the
requested bit is `bits[0]`. -/
structure BitsResponse where
  bits : List Bool
deriving DecidableEq

/-- `self._client.read_discrete_inputs(address)` (count defaults to 1). -/
def read_discrete_inputs (env : Env) (pre : List Event) (addr : Nat) :
    Except PyError BitsResponse × List Event :=
  (if env.connectOk then .ok ⟨[env.discreteBit addr]⟩
   else .error .connectionException,
   pre ++ [.readDiscreteInputs addr])

/-- `self._client.read_input_registers(address, count).registers`. -/
def read_input_registers (env : Env) (pre : List Event) (addr count : Nat) :
    Except PyError (List Nat) × List Event :=
  (if env.connectOk then .ok ((List.range count).map fun k => env.regVal (addr + k))
   else .error .connectionException,
   pre ++ [.readInputRegisters addr count])

/-- `Edges(IntEnum)`: `RISING = enum.auto() = 1`.  Polarity values are
modelled as the underlying Python ints. -/
def Edges.RISING : Int := 1

/-- `Edges(IntEnum)`: `FALLING = enum.auto() = 2`. -/
def Edges.FALLING : Int := 2

/-- `ADAM6XXX.get_digital_output(index)`: reads back the coil at
`self.digital_outputs[index]` and returns `bits[0]`.  `tbl` is
`self.digital_outputs`. -/
def get_digital_output (env : Env) (tbl : List Nat) (pre : List Event)
    (index : Int) : Except PyError Bool × List Event :=
  match pyIndex tbl index with
  | .error e => (.error e, pre)
  | .ok addr => read_coils_bit env pre addr

/-- `ADAM6XXX.set_digital_output(index, state, verify)`: writes the coil
at `self.digital_outputs[index]`; when `verify`, reads it back via
`get_digital_output(index)` and `assert (coil_state == state)`. -/
def set_digital_output (env : Env) (tbl : List Nat) (pre : List Event)
    (index : Int) (state : Bool) (verify : Bool) :
    Except PyError Unit × List Event :=
  match pyIndex tbl index with
  | .error e => (.error e, pre)
  | .ok addr =>
    match write_coil env pre addr state with
    | (.error e, tr) => (.error e, tr)
    | (.ok _, tr) =>
      if verify then
        match get_digital_output env tbl tr index with
        | (.error e, tr2) => (.error e, tr2)
        | (.ok coil_state, tr2) =>
          (if coil_state = state then .ok () else .error .assertionError, tr2)
      else (.ok (), tr)

/-- `ADAM6XXX.get_digital_input(index)`: issues the discrete-input read
at `self.digital_inputs[index]` and returns the pymodbus response object
itself — the source omits the `.bits[0]` projection that
`get_digital_output` performs. -/
def get_digital_input (env : Env) (tbl : List Nat) (index : Int) :
    Except PyError BitsResponse × List Event :=
  match pyIndex tbl index with
  | .error e => (.error e, [])
  | .ok addr => read_discrete_inputs env [] addr

/-- `ADAM6XXX.pulse_digital_output(index, polarity, verify, duration)`.
`assert (polarity in Edges)` is Python 3.12 `IntEnum` value containment:
it holds exactly when `polarity` is 1 (`RISING`) or 2 (`FALLING`), and
the failed assert raises before anything else happens.  (On Python
< 3.12 a non-member raises `TypeError` from the `in` itself — still
before any transport operation.) -/
def pulse_digital_output (env : Env) (tbl : List Nat)
    (index : Int) (polarity : Int) (verify : Bool) (duration : ℚ) :
    Except PyError Unit × List Event :=
  if polarity = Edges.RISING ∨ polarity = Edges.FALLING then
    if polarity = Edges.RISING then
      match set_digital_output env tbl [] index false verify with
      | (.error e, tr) => (.error e, tr)
      | (.ok _, tr) =>
        match set_digital_output env tbl tr index true verify with
        | (.error e, tr) => (.error e, tr)
        | (.ok _, tr) =>
          match pySleep tr duration with
          | (.error e, tr) => (.error e, tr)
          | (.ok _, tr) => set_digital_output env tbl tr index false verify
    else
      match set_digital_output env tbl [] index true verify with
      | (.error e, tr) => (.error e, tr)
      | (.ok _, tr) =>
        match set_digital_output env tbl tr index false verify with
        | (.error e, tr) => (.error e, tr)
        | (.ok _, tr) =>
          match pySleep tr duration with
          | (.error e, tr) => (.error e, tr)
          | (.ok _, tr) => set_digital_output env tbl tr index true verify
  else (.error .assertionError, [])

/-- `ADAM6XXX.module_name = 210`: base address of the two-register module
model name. -/
def module_name : Nat := 210

/-- `ADAM6XXX.get_module_name()`: reads two registers at `module_name`,
unpacks them as `low, high`, and builds the name from the nonzero ones,
`hex(low)[2:]` first then `hex(high)[2:]`.  (The `valueError` arm is the
Python unpacking error for a register list not of length two; it cannot
arise here since the read requests exactly two registers.) -/
def get_module_name (env : Env) (pre : List Event) :
    Except PyError String × List Event :=
  match read_input_registers env pre module_name 2 with
  | (.error e, tr) => (.error e, tr)
  | (.ok regs, tr) =>
    match regs with
    | [low, high] =>
      let name := ""
      let name := if low ≠ 0 then name ++ pyHex low else name
      let name := if high ≠ 0 then name ++ pyHex high else name
      (.ok name, tr)
    | _ => (.error .valueError, tr)

/-- `ADAM6XXX.connect()`: `self.connected = self._client.connect()`, then
unconditionally `self.get_module_name()`, then `return self.connected`.
An exception raised by the identification read propagates out of
`connect`. -/
def connect (env : Env) : Except PyError Bool × List Event :=
  let connected := env.connectOk
  let tr := [Event.connectOp]
  match get_module_name env tr with
  | (.error e, tr2) => (.error e, tr2)
  | (.ok _, tr2) => (.ok connected, tr2)

/-- `ADAM6XXX.get_counter(index)`: reads two registers at
`self.counter_registers[index]`, unpacks `low, high`, and returns
`high * 65536 + low`. -/
def get_counter (env : Env) (tbl : List Nat) (index : Int) :
    Except PyError Nat × List Event :=
  match pyIndex tbl index with
  | .error e => (.error e, [])
  | .ok addr =>
    match read_input_registers env [] addr 2 with
    | (.error e, tr) => (.error e, tr)
    | (.ok regs, tr) =>
      match regs with
      | [low, high] => (.ok (high * 65536 + low), tr)
      | _ => (.error .valueError, tr)

/-- Python `list / float` raises `TypeError`: no division is defined
between a list and a float. -/
def pyListDivFloat (_xs : List Nat) (_d : ℚ) : Except PyError ℚ :=
  .error .typeError

/-- `ADAM6XXX.get_frequency(index)`: reads one register at
`self.counter_registers[index]` and binds `low` to the whole
`.registers` list (the source has no unpacking), then returns
`low / 10.0` — a `list / float` division. -/
def get_frequency (env : Env) (tbl : List Nat) (index : Int) :
    Except PyError ℚ × List Event :=
  match pyIndex tbl index with
  | .error e => (.error e, [])
  | .ok addr =>
    match read_input_registers env [] addr 1 with
    | (.error e, tr) => (.error e, tr)
    | (.ok low, tr) => (pyListDivFloat low 10, tr)

/-- `ADAM6052.digital_inputs`. -/
def ADAM6052.digital_inputs : List Nat := [0, 1, 2, 3, 4, 5, 6, 7]

/-- `ADAM6052.digital_outputs`. -/
def ADAM6052.digital_outputs : List Nat := [16, 17, 18, 19, 20, 21, 22, 23]

/-- `ADAM6052.counter_registers`. -/
def ADAM6052.counter_registers : List Nat := [0, 2, 4, 6, 8, 10, 12, 14]

/-- `ADAM6060.digital_inputs`. -/
def ADAM6060.digital_inputs : List Nat := [0, 1, 2, 3, 4, 5]

/-- `ADAM6060.digital_outputs`. -/
def ADAM6060.digital_outputs : List Nat := [16, 17, 18, 19, 20, 21]

/-- `ADAM6060.counter_registers`. -/
def ADAM6060.counter_registers : List Nat := [0, 2, 4, 6, 8, 10]

/-- The value forced by the `k`-th force step (k = 0, 1, 2) of a pulse of
polarity `p`: RISING forces LOW, HIGH, LOW; FALLING forces HIGH, LOW,
HIGH. -/
def pulseStep (p : Int) (k : Nat) : Bool :=
  if p = Edges.RISING then decide (k = 1) else decide (k ≠ 1)

/-- The trace produced by the first `k` successful verified force steps
of a pulse of polarity `p` at coil address `addr` (the hold sleep sits
between the second and third steps, so it belongs to the `k = 2`
prefix). -/
def pulseLead (addr : Nat) (p : Int) (d : ℚ) (k : Nat) : List Event :=
  if k = 0 then []
  else if k = 1 then
    [.writeCoil addr (pulseStep p 0), .readCoils addr]
  else
    [.writeCoil addr (pulseStep p 0), .readCoils addr,
     .writeCoil addr (pulseStep p 1), .readCoils addr, .sleep d]

/-- The value of the last coil write in a trace, if any: the state the
output was last forced to. -/
def lastForcedState (tr : List Event) : Option Bool :=
  (tr.filterMap fun e => match e with
    | .writeCoil _ v => some v
    | _ => none).getLast?

/-- A healthy, all-LOW, all-zero environment: the transport opens and
every read returns LOW / 0. -/
def envStd : Env :=
  { connectOk := true
    coilBit := fun _ _ => false
    discreteBit := fun _ => false
    regVal := fun _ => 0 }

/-- A healthy environment whose input registers all read 123. -/
def envFreq : Env := { envStd with regVal := fun _ => 123 }

/-- An environment whose transport cannot be opened. -/
def envBad : Env := { envStd with connectOk := false }

/-- A healthy environment with module-name registers 0x41 (low) and
0x42 (high). -/
def envName : Env :=
  { envStd with regVal := fun a => if a = 210 then 65 else if a = 211 then 66 else 0 }

/-- A healthy environment with module-name registers 0 (low) and
0x5A (high). -/
def envName2 : Env :=
  { envStd with regVal := fun a => if a = 211 then 90 else 0 }

/-- A healthy environment with counter registers low = 5, high = 2 at
addresses 0 and 1. -/
def envCnt : Env :=
  { envStd with regVal := fun a => if a = 0 then 5 else if a = 1 then 2 else 0 }

/-- An environment whose coil read-backs follow a RISING pulse exactly:
the `k`-th coil read returns the value the `k`-th force step wrote. -/
def envRise : Env :=
  { envStd with coilBit := fun k _ => decide (k = 1) }

/-- An environment whose coil read-backs follow a FALLING pulse exactly. -/
def envFall : Env :=
  { envStd with coilBit := fun k _ => decide (k ≠ 1) }

lemma coilReadsIn_writeCoil (pre : List Event) (a : Nat) (s : Bool) :
    coilReadsIn (pre ++ [.writeCoil a s]) = coilReadsIn pre := by
  simp [coilReadsIn, List.countP_append]

lemma set_noverify (env : Env) (tbl : List Nat) (pre : List Event) (i : Int)
    (addr : Nat) (state : Bool) (hc : env.connectOk = true)
    (hp : pyIndex tbl i = .ok addr) :
    set_digital_output env tbl pre i state false
      = (.ok (), pre ++ [.writeCoil addr state]) := by
  simp [set_digital_output, hp, write_coil, hc]

lemma set_verify_pass (env : Env) (tbl : List Nat) (pre : List Event) (i : Int)
    (addr : Nat) (state : Bool) (hc : env.connectOk = true)
    (hp : pyIndex tbl i = .ok addr)
    (hbit : env.coilBit (coilReadsIn pre) addr = state) :
    set_digital_output env tbl pre i state true
      = (.ok (), pre ++ [.writeCoil addr state, .readCoils addr]) := by
  simp [set_digital_output, hp, write_coil, hc, get_digital_output,
    read_coils_bit, coilReadsIn_writeCoil, hbit]

lemma set_verify_fail (env : Env) (tbl : List Nat) (pre : List Event) (i : Int)
    (addr : Nat) (state : Bool) (hc : env.connectOk = true)
    (hp : pyIndex tbl i = .ok addr)
    (hbit : env.coilBit (coilReadsIn pre) addr ≠ state) :
    set_digital_output env tbl pre i state true
      = (.error .assertionError, pre ++ [.writeCoil addr state, .readCoils addr]) := by
  simp [set_digital_output, hp, write_coil, hc, get_digital_output,
    read_coils_bit, coilReadsIn_writeCoil, hbit]

lemma pySleep_nonneg (pre : List Event) (d : ℚ) (hd : 0 ≤ d) :
    pySleep pre d = (.ok (), pre ++ [.sleep d]) := by
  simp [pySleep, not_lt.mpr hd]

lemma pySleep_neg (pre : List Event) (d : ℚ) (hd : d < 0) :
    pySleep pre d = (.error .valueError, pre) := by
  simp [pySleep, hd]

lemma pyIndex_oob (tbl : List Nat) (i : Int)
    (h : (tbl.length : Int) ≤ i ∨ i < -(tbl.length : Int)) :
    pyIndex tbl i = .error .indexError := by
  have hj : ¬(0 ≤ (if i < 0 then i + (tbl.length : Int) else i) ∧
      (if i < 0 then i + (tbl.length : Int) else i).toNat < tbl.length) := by
    split_ifs <;> omega
  unfold pyIndex
  exact dif_neg hj

lemma pyIndex_neg_wraps (tbl : List Nat) (i : Int)
    (h1 : -(tbl.length : Int) ≤ i) (h2 : i < 0) :
    pyIndex tbl i = .ok (tbl.getD (i + tbl.length).toNat 0) := by
  have hn : 0 ≤ i + (tbl.length : Int) ∧ (i + (tbl.length : Int)).toNat < tbl.length := by
    omega
  unfold pyIndex
  simp only [if_pos h2]
  rw [dif_pos hn]
  simp only [List.getD_eq_getElem?_getD, List.getElem?_eq_getElem hn.2,
    List.get_eq_getElem, Option.getD_some]

lemma lastForcedState_concat_write (tr : List Event) (a : Nat) (v : Bool) :
    lastForcedState (tr ++ [.writeCoil a v, .readCoils a]) = some v := by
  simp [lastForcedState, List.filterMap_append, List.getLast?_concat]

lemma pulse_rising_noverify (env : Env) (tbl : List Nat) (i : Int) (addr : Nat)
    (d : ℚ) (hc : env.connectOk = true) (hp : pyIndex tbl i = .ok addr)
    (hd : 0 ≤ d) :
    pulse_digital_output env tbl i Edges.RISING false d
      = (.ok (), [.writeCoil addr false, .writeCoil addr true, .sleep d,
          .writeCoil addr false]) := by
  simp only [pulse_digital_output, true_or, if_true]
  rw [set_noverify env tbl [] i addr false hc hp]
  simp only [List.nil_append]
  rw [set_noverify env tbl [.writeCoil addr false] i addr true hc hp]
  simp only [List.cons_append, List.nil_append]
  rw [pySleep_nonneg _ d hd]
  simp only [List.cons_append, List.nil_append]
  rw [set_noverify env tbl _ i addr false hc hp]
  simp

lemma pulse_rising_noverify_negdur (env : Env) (tbl : List Nat) (i : Int)
    (addr : Nat) (d : ℚ) (hc : env.connectOk = true)
    (hp : pyIndex tbl i = .ok addr) (hd : d < 0) :
    pulse_digital_output env tbl i Edges.RISING false d
      = (.error .valueError, [.writeCoil addr false, .writeCoil addr true]) := by
  simp only [pulse_digital_output, true_or, if_true]
  rw [set_noverify env tbl [] i addr false hc hp]
  simp only [List.nil_append]
  rw [set_noverify env tbl [.writeCoil addr false] i addr true hc hp]
  simp only [List.cons_append, List.nil_append]
  rw [pySleep_neg _ d hd]

lemma pulse_falling_noverify (env : Env) (tbl : List Nat) (i : Int) (addr : Nat)
    (d : ℚ) (hc : env.connectOk = true) (hp : pyIndex tbl i = .ok addr)
    (hd : 0 ≤ d) :
    pulse_digital_output env tbl i Edges.FALLING false d
      = (.ok (), [.writeCoil addr true, .writeCoil addr false, .sleep d,
          .writeCoil addr true]) := by
  simp only [pulse_digital_output, or_true, if_true]
  rw [if_neg (by decide : ¬(Edges.FALLING = Edges.RISING))]
  rw [set_noverify env tbl [] i addr true hc hp]
  simp only [List.nil_append]
  rw [set_noverify env tbl [.writeCoil addr true] i addr false hc hp]
  simp only [List.cons_append, List.nil_append]
  rw [pySleep_nonneg _ d hd]
  simp only [List.cons_append, List.nil_append]
  rw [set_noverify env tbl _ i addr true hc hp]
  simp

lemma pulse_rising_verify (env : Env) (tbl : List Nat) (i : Int) (addr : Nat)
    (d : ℚ) (hc : env.connectOk = true) (hp : pyIndex tbl i = .ok addr)
    (hd : 0 ≤ d) (h0 : env.coilBit 0 addr = false)
    (h1 : env.coilBit 1 addr = true) (h2 : env.coilBit 2 addr = false) :
    pulse_digital_output env tbl i Edges.RISING true d
      = (.ok (), [.writeCoil addr false, .readCoils addr, .writeCoil addr true,
          .readCoils addr, .sleep d, .writeCoil addr false, .readCoils addr]) := by
  simp only [pulse_digital_output, true_or, if_true]
  rw [set_verify_pass env tbl [] i addr false hc hp h0]
  simp only [List.nil_append]
  rw [set_verify_pass env tbl [.writeCoil addr false, .readCoils addr] i addr true
    hc hp h1]
  simp only [List.cons_append, List.nil_append]
  rw [pySleep_nonneg _ d hd]
  simp only [List.cons_append, List.nil_append]
  rw [set_verify_pass env tbl [.writeCoil addr false, .readCoils addr,
    .writeCoil addr true, .readCoils addr, .sleep d] i addr false hc hp h2]
  simp

lemma pulse_falling_verify (env : Env) (tbl : List Nat) (i : Int) (addr : Nat)
    (d : ℚ) (hc : env.connectOk = true) (hp : pyIndex tbl i = .ok addr)
    (hd : 0 ≤ d) (h0 : env.coilBit 0 addr = true)
    (h1 : env.coilBit 1 addr = false) (h2 : env.coilBit 2 addr = true) :
    pulse_digital_output env tbl i Edges.FALLING true d
      = (.ok (), [.writeCoil addr true, .readCoils addr, .writeCoil addr false,
          .readCoils addr, .sleep d, .writeCoil addr true, .readCoils addr]) := by
  simp only [pulse_digital_output, or_true, if_true]
  rw [if_neg (by decide : ¬(Edges.FALLING = Edges.RISING))]
  rw [set_verify_pass env tbl [] i addr true hc hp h0]
  simp only [List.nil_append]
  rw [set_verify_pass env tbl [.writeCoil addr true, .readCoils addr] i addr false
    hc hp h1]
  simp only [List.cons_append, List.nil_append]
  rw [pySleep_nonneg _ d hd]
  simp only [List.cons_append, List.nil_append]
  rw [set_verify_pass env tbl [.writeCoil addr true, .readCoils addr,
    .writeCoil addr false, .readCoils addr, .sleep d] i addr true hc hp h2]
  simp

/-- C1 counterexample: with duration 0 (which is not strictly positive),
`pulse_digital_output` does not fail with any argument error and issues
three coil writes — the claim that a non-positive duration fails with
`InvalidArgument` before any output is touched is false on the code. -/
theorem C1_counterexample_zero_duration_pulse_writes :
    pulse_digital_output envStd ADAM6052.digital_outputs 0 Edges.RISING false 0
      = (.ok (), [.writeCoil 16 false, .writeCoil 16 true, .sleep 0,
          .writeCoil 16 false]) := rfl

/-- C1 (amended): `pulse_digital_output` performs no duration validation
and never raises `InvalidArgument`.  A pulse with duration 0 executes the
full force sequence with a zero-length hold and succeeds; a negative
duration executes the first two force steps (two coil writes) and only
then fails, with `ValueError` raised by `time.sleep`. -/
theorem C1_amended_no_duration_validation (env : Env) (tbl : List Nat)
    (i : Int) (addr : Nat) (d : ℚ) (hc : env.connectOk = true)
    (hp : pyIndex tbl i = .ok addr) :
    pulse_digital_output env tbl i Edges.RISING false 0
      = (.ok (), [.writeCoil addr false, .writeCoil addr true, .sleep 0,
          .writeCoil addr false])
    ∧ (d < 0 →
        pulse_digital_output env tbl i Edges.RISING false d
          = (.error .valueError, [.writeCoil addr false, .writeCoil addr true])) :=
  ⟨pulse_rising_noverify env tbl i addr 0 hc hp le_rfl,
   fun hd => pulse_rising_noverify_negdur env tbl i addr d hc hp hd⟩

/-- C1 witness: the amended statement at a concrete input (table of the
ADAM-6052, output 0, duration -1). -/
theorem C1_amended_witness :
    pulse_digital_output envStd ADAM6052.digital_outputs 0 Edges.RISING false (-1)
      = (.error .valueError, [.writeCoil 16 false, .writeCoil 16 true]) :=
  (C1_amended_no_duration_validation envStd ADAM6052.digital_outputs 0 16 (-1)
    rfl rfl).2 (by norm_num)

/-- C2: `get_frequency` does issue the single-register read at the mapped
counter base address, but then raises `TypeError`: the source binds `low`
to the whole `.registers` list and divides the list by `10.0`.  With the
register reading 123 the call raises instead of returning 12.3, although
the function's own docstring promises the register value in hertz
(low/10.0) — the read is issued, then the division fails. -/
theorem C2_frequency_raises_type_error :
    get_frequency envFreq ADAM6052.counter_registers 0
      = (.error .typeError, [.readInputRegisters 0 1]) := rfl

/-- C4: `get_digital_input(0)` with the input LOW issues exactly the one
discrete-input read at the mapped address (no write, no verification),
but returns the pymodbus response object itself — `bits` still wrapped —
rather than the boolean `false` its docstring promises: the source omits
the `.bits[0]` projection that `get_digital_output` performs. -/
theorem C4_input_returns_response_object :
    get_digital_input envStd ADAM6052.digital_inputs 0
      = (.ok { bits := [false] }, [.readDiscreteInputs 0]) := rfl

/-- C10: calling `pulse_digital_output` with a polarity that is neither
RISING (1) nor FALLING (2) fails the `assert (polarity in Edges)` before
any force step: no coil write or read — no transport operation at all —
is issued, for every index, verify flag and duration. -/
theorem C10_invalid_polarity_no_transport_op (env : Env) (tbl : List Nat)
    (i : Int) (p : Int) (verify : Bool) (d : ℚ)
    (h1 : p ≠ Edges.RISING) (h2 : p ≠ Edges.FALLING) :
    pulse_digital_output env tbl i p verify d = (.error .assertionError, []) := by
  simp only [pulse_digital_output]
  rw [if_neg]
  rintro (h | h)
  · exact h1 h
  · exact h2 h

/-- C10 witness: polarity 3 on a concrete environment and table issues
nothing. -/
theorem C10_witness :
    pulse_digital_output envStd ADAM6052.digital_outputs 0 3 true 1
      = (.error .assertionError, []) :=
  C10_invalid_polarity_no_transport_op envStd ADAM6052.digital_outputs 0 3 true 1
    (by decide) (by decide)

lemma get_module_name_ok (env : Env) (pre : List Event)
    (hc : env.connectOk = true) :
    get_module_name env pre
      = (.ok ((if env.regVal 210 ≠ 0 then pyHex (env.regVal 210) else "")
           ++ (if env.regVal 211 ≠ 0 then pyHex (env.regVal 211) else "")),
         pre ++ [.readInputRegisters 210 2]) := by
  simp only [get_module_name, read_input_registers, hc, if_true, module_name,
    (by decide : List.range 2 = [0, 1]), List.map_cons, List.map_nil,
    Nat.add_zero]
  split_ifs <;> simp

/-- C5 counterexample: when the transport cannot be opened, `connect`
still performs the identification read (the register read at the module
name address appears in the trace), and the raised `ConnectionError`
comes from that read instead of `connect` returning the `false`
outcome — contradicting the claim that the identification read is not
performed on failure. -/
theorem C5_counterexample_failed_connect_still_identifies :
    connect envBad = (.error .connectionException,
      [.connectOp, .readInputRegisters 210 2])
    ∧ Event.readInputRegisters 210 2 ∈ (connect envBad).2 :=
  ⟨rfl, by decide⟩

/-- C5 (amended): `connect` opens the transport, sets `connected` to the
outcome, and then unconditionally performs the identification read.  On
success it returns true.  When the transport cannot be opened, the
identification read is still issued and fails with `ConnectionError`,
which propagates instead of the `false` return.  In both cases the trace
is exactly one transport-open attempt followed by one identification
read — no internal retry. -/
theorem C5_amended_connect_always_identifies (env : Env) :
    (env.connectOk = true →
      connect env = (.ok true, [.connectOp, .readInputRegisters 210 2]))
    ∧ (env.connectOk = false →
      connect env = (.error .connectionException,
        [.connectOp, .readInputRegisters 210 2])) := by
  constructor
  · intro hc
    simp only [connect]
    rw [get_module_name_ok env [Event.connectOp] hc]
    simp [hc]
  · intro hc
    simp [connect, get_module_name, read_input_registers, module_name, hc]

/-- C5 witness: the amended statement at a healthy and at an unreachable
transport. -/
theorem C5_amended_witness :
    connect envStd = (.ok true, [.connectOp, .readInputRegisters 210 2])
    ∧ connect envBad = (.error .connectionException,
        [.connectOp, .readInputRegisters 210 2]) :=
  ⟨(C5_amended_connect_always_identifies envStd).1 rfl,
   (C5_amended_connect_always_identifies envBad).2 rfl⟩

/-- C8: `get_module_name` reads two consecutive registers starting at the
module-name address 210 and returns the concatenation of the low
segment then the high segment, each non-zero register rendered as
lowercase hex digits and a zero register contributing nothing; with
low = 0x41 and high = 0x42 the result is "4142", and with low = 0,
high = 0x5A it is "5a". -/
theorem C8_identify_hex_concatenation :
    (∀ env : Env, env.connectOk = true →
       get_module_name env []
         = (.ok ((if env.regVal 210 ≠ 0 then pyHex (env.regVal 210) else "")
              ++ (if env.regVal 211 ≠ 0 then pyHex (env.regVal 211) else "")),
            [.readInputRegisters 210 2]))
    ∧ get_module_name envName [] = (.ok "4142", [.readInputRegisters 210 2])
    ∧ get_module_name envName2 [] = (.ok "5a", [.readInputRegisters 210 2]) :=
  ⟨fun env hc => by simpa using get_module_name_ok env [] hc, rfl, rfl⟩

/-- C8 witness: the general statement applied to the all-zero
environment, where both registers contribute empty segments. -/
theorem C8_witness :
    get_module_name envStd [] = (.ok "", [.readInputRegisters 210 2]) :=
  (C8_identify_hex_concatenation.1 envStd rfl).trans rfl

/-- C9: `get_counter` issues one two-register read at the mapped counter
base address and returns `high * 65536 + low`; the result is an unsigned
32-bit value whenever the registers are 16-bit, and low = 5, high = 2
yields 131077. -/
theorem C9_counter_composition (env : Env) (tbl : List Nat) (i : Int)
    (addr : Nat) (hc : env.connectOk = true) (hp : pyIndex tbl i = .ok addr) :
    get_counter env tbl i
      = (.ok (env.regVal (addr + 1) * 65536 + env.regVal addr),
         [.readInputRegisters addr 2])
    ∧ (env.regVal addr < 65536 → env.regVal (addr + 1) < 65536 →
        env.regVal (addr + 1) * 65536 + env.regVal addr < 4294967296)
    ∧ get_counter envCnt ADAM6052.counter_registers 0
        = (.ok 131077, [.readInputRegisters 0 2]) := by
  refine ⟨?_, fun h1 h2 => by omega, rfl⟩
  simp only [get_counter, hp, read_input_registers, hc, if_true,
    (by decide : List.range 2 = [0, 1]), List.map_cons, List.map_nil,
    Nat.add_zero]
  simp

/-- C9 witness: the composition at low = 5, high = 2 on the ADAM-6052
counter table. -/
theorem C9_witness :
    get_counter envCnt ADAM6052.counter_registers 0
      = (.ok 131077, [.readInputRegisters 0 2]) :=
  (C9_counter_composition envCnt ADAM6052.counter_registers 0 0 rfl rfl).2.2

/-- C3 counterexample: index -1 is outside the claimed valid range
0 ≤ index < 8 of the ADAM-6052 output table, yet `set_digital_output`
does not fail: Python's negative indexing silently wraps to the last
table element and the coil at address 23 is written. -/
theorem C3_counterexample_negative_index_wraps :
    set_digital_output envStd ADAM6052.digital_outputs [] (-1) true false
      = (.ok (), [.writeCoil 23 true]) ∧ (-1 : Int) < 0 :=
  ⟨rfl, by decide⟩

/-- C3 (amended): for every operation taking a logical index, an index
with `index ≥ len(table)` or `index < -len(table)` fails with
`OutOfRange` (`IndexError`) before any transport operation, and no
out-of-bounds read of the address table occurs; but an index with
`-len(table) ≤ index < 0` is not rejected: Python list indexing wraps it
to `table[len(table) + index]`, and for example `get_digital_output`
then reads the coil at that wrapped address. -/
theorem C3_amended_index_bounds (env : Env) (tbl : List Nat) (i i2 : Int)
    (state verify : Bool) (p : Int) (d : ℚ)
    (hout : (tbl.length : Int) ≤ i ∨ i < -(tbl.length : Int))
    (hneg1 : -(tbl.length : Int) ≤ i2) (hneg2 : i2 < 0)
    (hpol : p = Edges.RISING ∨ p = Edges.FALLING)
    (hc : env.connectOk = true) :
    pyIndex tbl i = .error .indexError
    ∧ set_digital_output env tbl [] i state verify = (.error .indexError, [])
    ∧ get_digital_output env tbl [] i = (.error .indexError, [])
    ∧ get_digital_input env tbl i = (.error .indexError, [])
    ∧ pulse_digital_output env tbl i p verify d = (.error .indexError, [])
    ∧ get_counter env tbl i = (.error .indexError, [])
    ∧ get_frequency env tbl i = (.error .indexError, [])
    ∧ pyIndex tbl i2 = .ok (tbl.getD (i2 + tbl.length).toNat 0)
    ∧ get_digital_output env tbl [] i2
        = (.ok (env.coilBit 0 (tbl.getD (i2 + tbl.length).toNat 0)),
           [.readCoils (tbl.getD (i2 + tbl.length).toNat 0)]) := by
  have he := pyIndex_oob tbl i hout
  have hw := pyIndex_neg_wraps tbl i2 hneg1 hneg2
  refine ⟨he, ?_, ?_, ?_, ?_, ?_, ?_, hw, ?_⟩
  · simp [set_digital_output, he]
  · simp [get_digital_output, he]
  · simp [get_digital_input, he]
  · rcases hpol with h | h <;> subst h
    · simp only [pulse_digital_output, true_or, if_true]
      simp [set_digital_output, he]
    · simp only [pulse_digital_output, or_true, if_true]
      rw [if_neg (by decide : ¬(Edges.FALLING = Edges.RISING))]
      simp [set_digital_output, he]
  · simp [get_counter, he]
  · simp [get_frequency, he]
  · simp [get_digital_output, hw, read_coils_bit, hc, coilReadsIn]

/-- C3 witness: index 99 is rejected with no transport operation on the
ADAM-6052 output table, while index -1 wraps to the last coil address,
23. -/
theorem C3_amended_witness :
    set_digital_output envStd ADAM6052.digital_outputs [] 99 true true
      = (.error .indexError, [])
    ∧ pyIndex ADAM6052.digital_outputs (-1) = .ok 23 :=
  ⟨(C3_amended_index_bounds envStd ADAM6052.digital_outputs 99 (-1) true true
      Edges.RISING 0 (by decide) (by decide) (by decide) (Or.inl rfl)
      rfl).2.1,
   ((C3_amended_index_bounds envStd ADAM6052.digital_outputs 99 (-1) true true
      Edges.RISING 0 (by decide) (by decide) (by decide) (Or.inl rfl)
      rfl).2.2.2.2.2.2.2.1).trans rfl⟩

/-- C6: with `verify` on, `set_digital_output` issues the coil write and
then one coil read of the same address, and raises the mismatch error
(`AssertionError`, the spec's `VerificationMismatch`) when the read-back
differs from the requested state — one write, one read, no retry.
During a pulse, each force step is such a verified `set_digital_output`;
a read-back mismatch at any of the three steps aborts the sequence right
there: the trace is exactly the successful steps followed by the failed
step's write and read, the remaining steps are not executed, and the
last coil write in the trace — the state the output was left forced
to — is the one the failed step attempted. -/
theorem C6_verified_write_and_pulse_abort (env : Env) (tbl : List Nat)
    (i : Int) (addr : Nat) (hc : env.connectOk = true)
    (hp : pyIndex tbl i = .ok addr) :
    (∀ state : Bool, env.coilBit 0 addr ≠ state →
        set_digital_output env tbl [] i state true
          = (.error .assertionError, [.writeCoil addr state, .readCoils addr]))
    ∧ (∀ (p : Int) (d : ℚ) (k : Nat),
        (p = Edges.RISING ∨ p = Edges.FALLING) → 0 ≤ d → k < 3 →
        (∀ j, j < k → env.coilBit j addr = pulseStep p j) →
        env.coilBit k addr ≠ pulseStep p k →
        pulse_digital_output env tbl i p true d
          = (.error .assertionError,
             pulseLead addr p d k
               ++ [.writeCoil addr (pulseStep p k), .readCoils addr])
          ∧ lastForcedState (pulse_digital_output env tbl i p true d).2
              = some (pulseStep p k)) := by
  constructor
  · intro state hne
    have h := set_verify_fail env tbl [] i addr state hc hp hne
    simpa using h
  · intro p d k hpol hd hk hpre hmis
    have main : pulse_digital_output env tbl i p true d
        = (.error .assertionError,
           pulseLead addr p d k
             ++ [.writeCoil addr (pulseStep p k), .readCoils addr]) := by
      rcases hpol with h | h <;> subst h <;> interval_cases k
      · have hm : env.coilBit 0 addr ≠ false := by
          simpa [pulseStep] using hmis
        simp only [pulse_digital_output, true_or, if_true]
        rw [set_verify_fail env tbl [] i addr false hc hp hm]
        simp [pulseLead, pulseStep]
      · have h0 : env.coilBit 0 addr = false := by
          simpa [pulseStep] using hpre 0 (by norm_num)
        have hm : env.coilBit 1 addr ≠ true := by
          simpa [pulseStep] using hmis
        simp only [pulse_digital_output, true_or, if_true]
        rw [set_verify_pass env tbl [] i addr false hc hp h0]
        simp only [List.nil_append]
        rw [set_verify_fail env tbl [.writeCoil addr false, .readCoils addr]
          i addr true hc hp hm]
        simp [pulseLead, pulseStep]
      · have h0 : env.coilBit 0 addr = false := by
          simpa [pulseStep] using hpre 0 (by norm_num)
        have h1 : env.coilBit 1 addr = true := by
          simpa [pulseStep] using hpre 1 (by norm_num)
        have hm : env.coilBit 2 addr ≠ false := by
          simpa [pulseStep] using hmis
        simp only [pulse_digital_output, true_or, if_true]
        rw [set_verify_pass env tbl [] i addr false hc hp h0]
        simp only [List.nil_append]
        rw [set_verify_pass env tbl [.writeCoil addr false, .readCoils addr]
          i addr true hc hp h1]
        simp only [List.cons_append, List.nil_append]
        rw [pySleep_nonneg _ d hd]
        simp only [List.cons_append, List.nil_append]
        rw [set_verify_fail env tbl [.writeCoil addr false, .readCoils addr,
          .writeCoil addr true, .readCoils addr, .sleep d] i addr false hc hp hm]
        simp [pulseLead, pulseStep]
      · have hm : env.coilBit 0 addr ≠ true := by
          simpa [pulseStep, Edges.RISING, Edges.FALLING] using hmis
        simp only [pulse_digital_output, or_true, if_true]
        rw [if_neg (by decide : ¬(Edges.FALLING = Edges.RISING))]
        rw [set_verify_fail env tbl [] i addr true hc hp hm]
        simp [pulseLead, pulseStep, Edges.RISING, Edges.FALLING]
      · have h0 : env.coilBit 0 addr = true := by
          simpa [pulseStep, Edges.RISING, Edges.FALLING] using hpre 0 (by norm_num)
        have hm : env.coilBit 1 addr ≠ false := by
          simpa [pulseStep, Edges.RISING, Edges.FALLING] using hmis
        simp only [pulse_digital_output, or_true, if_true]
        rw [if_neg (by decide : ¬(Edges.FALLING = Edges.RISING))]
        rw [set_verify_pass env tbl [] i addr true hc hp h0]
        simp only [List.nil_append]
        rw [set_verify_fail env tbl [.writeCoil addr true, .readCoils addr]
          i addr false hc hp hm]
        simp [pulseLead, pulseStep, Edges.RISING, Edges.FALLING]
      · have h0 : env.coilBit 0 addr = true := by
          simpa [pulseStep, Edges.RISING, Edges.FALLING] using hpre 0 (by norm_num)
        have h1 : env.coilBit 1 addr = false := by
          simpa [pulseStep, Edges.RISING, Edges.FALLING] using hpre 1 (by norm_num)
        have hm : env.coilBit 2 addr ≠ true := by
          simpa [pulseStep, Edges.RISING, Edges.FALLING] using hmis
        simp only [pulse_digital_output, or_true, if_true]
        rw [if_neg (by decide : ¬(Edges.FALLING = Edges.RISING))]
        rw [set_verify_pass env tbl [] i addr true hc hp h0]
        simp only [List.nil_append]
        rw [set_verify_pass env tbl [.writeCoil addr true, .readCoils addr]
          i addr false hc hp h1]
        simp only [List.cons_append, List.nil_append]
        rw [pySleep_nonneg _ d hd]
        simp only [List.cons_append, List.nil_append]
        rw [set_verify_fail env tbl [.writeCoil addr true, .readCoils addr,
          .writeCoil addr false, .readCoils addr, .sleep d] i addr true hc hp hm]
        simp [pulseLead, pulseStep, Edges.RISING, Edges.FALLING]
    refine ⟨main, ?_⟩
    rw [main]
    exact lastForcedState_concat_write _ addr _

/-- C6 witness: on a device whose read-backs are stuck LOW, a verified
RISING pulse passes its first force step and aborts at the second: two
writes and two reads, the last write being the failed step's HIGH. -/
theorem C6_witness :
    pulse_digital_output envStd ADAM6052.digital_outputs 0 Edges.RISING true 0
      = (.error .assertionError,
         [.writeCoil 16 false, .readCoils 16, .writeCoil 16 true, .readCoils 16]) :=
  (((C6_verified_write_and_pulse_abort envStd ADAM6052.digital_outputs 0 16
      rfl rfl).2 Edges.RISING 0 1 (Or.inl rfl) le_rfl (by norm_num)
      (fun j hj => by interval_cases j; rfl) (by decide)).1).trans rfl

/-- C7: for a valid output index and positive duration, a RISING pulse
forces LOW, then HIGH, holds for the duration, then forces LOW — the
forced states are [LOW, HIGH, LOW], the hold sits between the second and
third force steps, and the output ends LOW; a FALLING pulse forces HIGH,
then LOW, holds, then forces HIGH — forced states [HIGH, LOW, HIGH],
ending HIGH.  This holds with verification off, and with verification on
whenever the read-backs match the forced values. -/
theorem C7_pulse_sequences (env : Env) (tbl : List Nat) (i : Int)
    (addr : Nat) (d : ℚ) (hc : env.connectOk = true)
    (hp : pyIndex tbl i = .ok addr) (hd : 0 < d) :
    (pulse_digital_output env tbl i Edges.RISING false d
       = (.ok (), [.writeCoil addr false, .writeCoil addr true, .sleep d,
           .writeCoil addr false])
     ∧ lastForcedState
         (pulse_digital_output env tbl i Edges.RISING false d).2 = some false)
    ∧ (pulse_digital_output env tbl i Edges.FALLING false d
       = (.ok (), [.writeCoil addr true, .writeCoil addr false, .sleep d,
           .writeCoil addr true])
     ∧ lastForcedState
         (pulse_digital_output env tbl i Edges.FALLING false d).2 = some true)
    ∧ ((∀ k, k < 3 → env.coilBit k addr = pulseStep Edges.RISING k) →
       pulse_digital_output env tbl i Edges.RISING true d
         = (.ok (), [.writeCoil addr false, .readCoils addr,
             .writeCoil addr true, .readCoils addr, .sleep d,
             .writeCoil addr false, .readCoils addr])
       ∧ lastForcedState
           (pulse_digital_output env tbl i Edges.RISING true d).2 = some false)
    ∧ ((∀ k, k < 3 → env.coilBit k addr = pulseStep Edges.FALLING k) →
       pulse_digital_output env tbl i Edges.FALLING true d
         = (.ok (), [.writeCoil addr true, .readCoils addr,
             .writeCoil addr false, .readCoils addr, .sleep d,
             .writeCoil addr true, .readCoils addr])
       ∧ lastForcedState
           (pulse_digital_output env tbl i Edges.FALLING true d).2 = some true) := by
  have hd0 : 0 ≤ d := le_of_lt hd
  refine ⟨⟨?_, ?_⟩, ⟨?_, ?_⟩, fun hm => ⟨?_, ?_⟩, fun hm => ⟨?_, ?_⟩⟩
  · exact pulse_rising_noverify env tbl i addr d hc hp hd0
  · rw [pulse_rising_noverify env tbl i addr d hc hp hd0]
    simp [lastForcedState]
  · exact pulse_falling_noverify env tbl i addr d hc hp hd0
  · rw [pulse_falling_noverify env tbl i addr d hc hp hd0]
    simp [lastForcedState]
  · exact pulse_rising_verify env tbl i addr d hc hp hd0
      (by simpa [pulseStep] using hm 0 (by norm_num))
      (by simpa [pulseStep] using hm 1 (by norm_num))
      (by simpa [pulseStep] using hm 2 (by norm_num))
  · rw [pulse_rising_verify env tbl i addr d hc hp hd0
      (by simpa [pulseStep] using hm 0 (by norm_num))
      (by simpa [pulseStep] using hm 1 (by norm_num))
      (by simpa [pulseStep] using hm 2 (by norm_num))]
    simp [lastForcedState]
  · exact pulse_falling_verify env tbl i addr d hc hp hd0
      (by simpa [pulseStep, Edges.RISING, Edges.FALLING] using hm 0 (by norm_num))
      (by simpa [pulseStep, Edges.RISING, Edges.FALLING] using hm 1 (by norm_num))
      (by simpa [pulseStep, Edges.RISING, Edges.FALLING] using hm 2 (by norm_num))
  · rw [pulse_falling_verify env tbl i addr d hc hp hd0
      (by simpa [pulseStep, Edges.RISING, Edges.FALLING] using hm 0 (by norm_num))
      (by simpa [pulseStep, Edges.RISING, Edges.FALLING] using hm 1 (by norm_num))
      (by simpa [pulseStep, Edges.RISING, Edges.FALLING] using hm 2 (by norm_num))]
    simp [lastForcedState]

/-- C7 witness: a RISING pulse of duration 1 on output 0 of the
ADAM-6052, without verification and, on a faithfully echoing device,
with verification. -/
theorem C7_witness :
    pulse_digital_output envStd ADAM6052.digital_outputs 0 Edges.RISING false 1
      = (.ok (), [.writeCoil 16 false, .writeCoil 16 true, .sleep 1,
          .writeCoil 16 false])
    ∧ pulse_digital_output envRise ADAM6052.digital_outputs 0 Edges.RISING true 1
      = (.ok (), [.writeCoil 16 false, .readCoils 16, .writeCoil 16 true,
          .readCoils 16, .sleep 1, .writeCoil 16 false, .readCoils 16]) :=
  ⟨(C7_pulse_sequences envStd ADAM6052.digital_outputs 0 16 1 rfl rfl
      (by norm_num)).1.1,
   ((C7_pulse_sequences envRise ADAM6052.digital_outputs 0 16 1 rfl rfl
      (by norm_num)).2.2.1 (fun k _ => rfl)).1⟩

end Adam6xxx
